import Mathlib

/-
Verification of `broadband_cap.py` against its specification.

Python numbers are modelled inside `ℚ`.  Python floats are IEEE 754 binary64
values; every float arising in this program is a rational number, and each
arithmetic operation rounds its exact rational result to 53 significant bits,
to nearest, ties to even.  The function `fl` below implements that rounding
(with an unbounded exponent: every value in this development is far inside
the normal binary64 range, so overflow and subnormal rounding never occur).
The rate converter `seconds_to_cap` applies `fl` after each operation, and is
`Option`-valued: `none` models the `AssertionError` raised on line 50 when
its two derivations round differently.  Inputs are assumed exactly
representable (command-line floats are parsed doubles; the integer inputs of
the tests are far below 2^53).

The duration decomposer works through Python `divmod`, whose float results
are exact at the magnitudes arising here (remainders are computed exactly,
quotients are small integers), so `Time.from_seconds` is modelled in exact
rational arithmetic: `divmod(x, y) = (⌊x / y⌋, x - y * ⌊x / y⌋)`.  Python's
`'%d'` formatting truncates a number toward zero before printing.  Printed
output is modelled as the list of lines written to standard output, paired
with a flag telling whether the routine returned normally or was aborted by
an uncaught `AssertionError`.
-/

namespace BroadbandCap

/-- round an integer-valued position to nearest, ties to even: the rounding
of `x` to an integer as IEEE 754 round-to-nearest-even does. -/
def rhe (x : ℚ) : ℤ :=
  if x - (⌊x⌋ : ℚ) < 1/2 then ⌊x⌋
  else if 1/2 < x - (⌊x⌋ : ℚ) then ⌊x⌋ + 1
  else if ⌊x⌋ % 2 = 0 then ⌊x⌋ else ⌊x⌋ + 1

/-- binary64 rounding: round `q` to 53 significant bits, to nearest, ties to
even (exponent unbounded; all values in this development are far inside the
normal range, so overflow and subnormals never arise). -/
def fl (q : ℚ) : ℚ :=
  if q = 0 then 0
  else
    (if q < 0 then -1 else 1) *
      ((rhe (|q| * (2 : ℚ) ^ ((52 : ℤ) - Int.log 2 |q|)) : ℤ) : ℚ) *
      (2 : ℚ) ^ (Int.log 2 |q| - 52)

/-- one megabyte is 8 megabits, so 1/8 megabyte per megabit (line 23 of the
source); 0.125 is a power of two and hence an exact double. -/
def MEGABYTES_IN_A_MEGABIT : ℚ := 0.125

/-- one gigabyte is 1000 megabytes (line 25 of the source). -/
def MEGABYTES_IN_A_GIGABYTE : ℚ := 1000

/-- the first derivation computed inside `seconds_to_cap` (lines 38-41), with
binary64 rounding after each operation. -/
def seconds_one (cap_in_gigabytes speed_in_megabits : ℚ) : ℚ :=
  fl (fl (cap_in_gigabytes * MEGABYTES_IN_A_GIGABYTE) /
      fl (MEGABYTES_IN_A_MEGABIT * speed_in_megabits))

/-- the second derivation computed inside `seconds_to_cap` (lines 43-48), with
binary64 rounding after each operation; the two intermediate names
`speed_in_megabytes` and `speed_in_gigabytes` of the source are inlined. -/
def seconds_two (cap_in_gigabytes speed_in_megabits : ℚ) : ℚ :=
  fl (cap_in_gigabytes /
      fl (fl (speed_in_megabits * MEGABYTES_IN_A_MEGABIT) /
          MEGABYTES_IN_A_GIGABYTE))

/-- `seconds_to_cap` (lines 28-52): compute both derivations, assert their
equality (line 50), and return the first; `none` models the `AssertionError`
raised when the two roundings disagree. -/
def seconds_to_cap (cap_in_gigabytes speed_in_megabits : ℚ) : Option ℚ :=
  if seconds_one cap_in_gigabytes speed_in_megabits =
      seconds_two cap_in_gigabytes speed_in_megabits then
    some (seconds_one cap_in_gigabytes speed_in_megabits)
  else none

/-- Python `divmod` on numbers: floor quotient and remainder `x - y * ⌊x / y⌋`
(exact at the magnitudes arising here). -/
def pydivmod (x y : ℚ) : ℚ × ℚ :=
  (((⌊x / y⌋ : ℤ) : ℚ), x - y * ((⌊x / y⌋ : ℤ) : ℚ))

/-- the `Time` named tuple (lines 55-61): five numeric fields. -/
structure Time where
  years : ℚ
  days : ℚ
  hours : ℚ
  minutes : ℚ
  seconds : ℚ
deriving DecidableEq, Repr

/-- decompose a number of seconds by successive `divmod`, largest unit first
(lines 62-81 of the source). -/
def Time.from_seconds (t : ℚ) : Time :=
  let year_in_seconds : ℚ := 60 * 60 * 24 * (365.25 : ℚ)
  let day_in_seconds : ℚ := 60 * 60 * 24
  let hour_in_seconds : ℚ := 60 * 60
  let minute_in_seconds : ℚ := 60
  let p1 := pydivmod t year_in_seconds
  let p2 := pydivmod p1.2 day_in_seconds
  let p3 := pydivmod p2.2 hour_in_seconds
  let p4 := pydivmod p3.2 minute_in_seconds
  ⟨p1.1, p2.1, p3.1, p4.1, p4.2⟩

/-- a string of `n` spaces. -/
def spaces (n : Nat) : String := String.mk (List.replicate n ' ')

/-- Python `str.ljust`: pad on the right with spaces to width `w`. -/
def ljust (s : String) (w : Nat) : String := s ++ spaces (w - s.length)

/-- Python right alignment as in `'%8s' % v`: pad on the left to width `w`. -/
def rjust (s : String) (w : Nat) : String := spaces (w - s.length) ++ s

/-- Python `int()` on a number: truncation toward zero. -/
def pytrunc (q : ℚ) : ℤ := if 0 ≤ q then ⌊q⌋ else -⌊-q⌋

/-- Python `'%d' % q`: truncate toward zero and print the integer. -/
def pyIntStr (q : ℚ) : String := toString (pytrunc q)

/-- Python `'%2d' % q`: the truncated value right-aligned in minimum width 2. -/
def fmt2d (q : ℚ) : String := rjust (pyIntStr q) 2

/-- one column of the effective `Time.__str__` (lines 94-99): a positive field
is rendered as `'%2d <name>'` left-justified to width 10, any other field as a
blank column of width 10. -/
def fieldColumn (n : ℚ) (name : String) : String :=
  if 0 < n then ljust (fmt2d n ++ " " ++ name) 10 else spaces 10

/-- the effective `Time.__str__` (lines 89-100; the second definition in the
class body wins): the years column is dropped when `years` is zero, and the
columns are joined with single spaces. -/
def Time.str (t : Time) : String :=
  let allFields : List (ℚ × String) :=
    [(t.years, "years"), (t.days, "days"), (t.hours, "hours"),
     (t.minutes, "minutes"), (t.seconds, "seconds")]
  let fields := if t.years = 0 then allFields.drop 1 else allFields
  String.intercalate " " (fields.map fun p => fieldColumn p.1 p.2)

/-- result of running a printing routine: the lines written to standard
output before the routine either returned normally (`ok = true`) or was
aborted by an uncaught `AssertionError` (`ok = false`). -/
structure PrintResult where
  lines : List String
  ok : Bool
deriving DecidableEq, Repr

/-- `print_time_to_cap` (lines 103-107): the banner line is printed first;
if `seconds_to_cap` raises, no second line is printed and the exception
propagates. -/
def print_time_to_cap (cap speed : ℚ) : PrintResult :=
  let banner := pyIntStr cap ++ " GB cap @ " ++ pyIntStr speed ++ " megabits:"
  match seconds_to_cap cap speed with
  | some s => ⟨[banner, "    " ++ Time.str (Time.from_seconds s)], true⟩
  | none => ⟨[banner], false⟩

/-- one data row of `print_cap_table` (line 116): `'%8s  %12s  %s'` applied to
the cap, the speed, and the rendered duration of the seconds value `s`. -/
def capTableRow (cap speed : ℤ) (s : ℚ) : String :=
  rjust (toString cap) 8 ++ "  " ++ rjust (toString speed) 12 ++ "  " ++
    Time.str (Time.from_seconds s)

/-- the row loop of `print_cap_table` (lines 113-117): one row per pair until
`seconds_to_cap` raises, which aborts the loop. -/
def capTableRows : List (ℤ × ℤ) → PrintResult
  | [] => ⟨[], true⟩
  | (c, s) :: rest =>
    match seconds_to_cap (c : ℚ) (s : ℚ) with
    | some v =>
      ⟨capTableRow c s v :: (capTableRows rest).lines, (capTableRows rest).ok⟩
    | none => ⟨[], false⟩

/-- `print_cap_table` (lines 110-117): the first `print` call emits the two
header lines, then the row loop runs. -/
def print_cap_table (figures : List (ℤ × ℤ)) : PrintResult :=
  let r := capTableRows figures
  ⟨"cap (GB)  speed (mb/s)  time to reach cap (at advertised capacity)" ::
     "--------  ------------  ------------------------------------------" ::
     r.lines, r.ok⟩

/-- the built-in figure set (lines 121-139): ((cap, speed), expected seconds)
for each entry. -/
def SECONDS_TO_CAP_CHECK_FIGURES : List ((ℤ × ℤ) × ℤ) :=
  [((1, 1), 8000), ((250, 1), 2000000), ((250, 5), 400000), ((250, 25), 80000),
   ((250, 50), 40000), ((250, 100), 20000), ((250, 250), 8000),
   ((250, 1000), 2000), ((250, 10000), 200), ((300, 1), 2400000),
   ((300, 5), 480000), ((300, 25), 96000), ((300, 50), 48000),
   ((300, 100), 24000), ((300, 300), 8000), ((300, 1000), 2400),
   ((300, 10000), 240)]

/-- the (cap, speed) pairs `main` passes to `print_cap_table` (line 218). -/
def capTableFigures : List (ℤ × ℤ) := SECONDS_TO_CAP_CHECK_FIGURES.map Prod.fst

/-- outcome of the `main` dispatch: whether the usage help is printed and the
process exit status. -/
structure MainOutcome where
  printsHelp : Bool
  exitCode : Nat
deriving DecidableEq, Repr

/-- dispatch logic of `main` after option parsing (lines 217-226), in normal
operation (the `--test` branch aside): `--print-table` prints the table and
returns 0; a missing `--cap` or `--speed` prints the help and reaches
`prs.error`, which prints the usage text and exits the process with status 2
(the `optparse` error path); otherwise the single line report runs.  An
uncaught `AssertionError` from `seconds_to_cap` terminates the interpreter
with exit status 1. -/
def mainLogic (print_table : Bool) (cap speed : Option ℚ) : MainOutcome :=
  if print_table then
    ⟨false, if (print_cap_table capTableFigures).ok then 0 else 1⟩
  else
    match cap, speed with
    | some c, some s => ⟨false, if (print_time_to_cap c s).ok then 0 else 1⟩
    | _, _ => ⟨true, 2⟩

end BroadbandCap

namespace BroadbandCap

/-- characterization of `Int.log` base 2 on the rationals by the dyadic
bracketing of the argument. -/
lemma log2_eq (q : ℚ) (e : ℤ) (h0 : 0 < q)
    (h1 : (2 : ℚ) ^ e ≤ q) (h2 : q < (2 : ℚ) ^ (e + 1)) :
    Int.log 2 q = e := by
  have hb : (1 : ℕ) < 2 := one_lt_two
  have h1' : ((2 : ℕ) : ℚ) ^ e ≤ q := by rw [Nat.cast_ofNat]; exact h1
  have h2' : q < ((2 : ℕ) : ℚ) ^ (e + 1) := by rw [Nat.cast_ofNat]; exact h2
  have hle : e ≤ Int.log 2 q := (Int.zpow_le_iff_le_log hb h0).mp h1'
  have hlt : Int.log 2 q < e + 1 := (Int.lt_zpow_iff_log_lt hb h0).mp h2'
  omega

/-- evaluation rule for `rhe` when the fractional part is below one half. -/
lemma rhe_eq_floor (x : ℚ) (n : ℤ) (hn : ⌊x⌋ = n) (hf : x - (n : ℚ) < 1/2) :
    rhe x = n := by
  unfold rhe
  rw [hn, if_pos hf]

/-- evaluation rule for `rhe` when the fractional part is above one half. -/
lemma rhe_eq_ceil (x : ℚ) (n : ℤ) (hn : ⌊x⌋ = n) (hf : 1/2 < x - (n : ℚ)) :
    rhe x = n + 1 := by
  unfold rhe
  rw [hn, if_neg (by linarith), if_pos hf]

/-- evaluation rule for `fl` on a positive argument with known exponent
bracket and known rounded significand. -/
lemma fl_eval (q : ℚ) (e m : ℤ) (h0 : 0 < q)
    (h1 : (2 : ℚ) ^ e ≤ q) (h2 : q < (2 : ℚ) ^ (e + 1))
    (hm : rhe (q * (2 : ℚ) ^ ((52 : ℤ) - e)) = m) :
    fl q = (m : ℚ) * (2 : ℚ) ^ (e - 52) := by
  have hq0 : q ≠ 0 := ne_of_gt h0
  have habs : |q| = q := abs_of_pos h0
  unfold fl
  rw [if_neg hq0, habs, log2_eq q e h0 h1 h2, hm,
    if_neg (not_lt.mpr h0.le), one_mul]

/-- a positive value whose scaled significand is already an integer is left
unchanged by binary64 rounding. -/
lemma fl_exact (q : ℚ) (e n : ℤ) (h0 : 0 < q)
    (h1 : (2 : ℚ) ^ e ≤ q) (h2 : q < (2 : ℚ) ^ (e + 1))
    (hq : q * (2 : ℚ) ^ ((52 : ℤ) - e) = (n : ℚ)) : fl q = q := by
  have hfl : ⌊q * (2 : ℚ) ^ ((52 : ℤ) - e)⌋ = n := by
    rw [hq]; exact Int.floor_intCast n
  have h := fl_eval q e n h0 h1 h2
    (rhe_eq_floor _ n hfl (by rw [hq]; norm_num))
  rw [h, ← hq, mul_assoc]
  have hz : (2 : ℚ) ^ ((52 : ℤ) - e) * (2 : ℚ) ^ (e - 52) = 1 := by
    rw [← zpow_add₀ (two_ne_zero)]
    have he : (52 : ℤ) - e + (e - 52) = 0 := by ring
    rw [he, zpow_zero]
  rw [hz, mul_one]

/-- 1000 is an exact double. -/
lemma fl_1000 : fl 1000 = 1000 :=
  fl_exact 1000 9 (by norm_num) (by norm_num) (by norm_num)
    (n := 8796093022208000) (by norm_num)

/-- 11/8 = 1.375 is an exact double. -/
lemma fl_11_8 : fl (11/8) = 11/8 :=
  fl_exact (11/8) 0 (by norm_num) (by norm_num) (by norm_num)
    (n := 6192449487634432) (by norm_num)

/-- 8000 is an exact double. -/
lemma fl_8000 : fl 8000 = 8000 :=
  fl_exact 8000 12 (by norm_num) (by norm_num) (by norm_num)
    (n := 8796093022208000) (by norm_num)

/-- 250000 is an exact double. -/
lemma fl_250000 : fl 250000 = 250000 :=
  fl_exact 250000 17 (by norm_num) (by norm_num) (by norm_num)
    (n := 8589934592000000) (by norm_num)

/-- 125 is an exact double. -/
lemma fl_125 : fl 125 = 125 :=
  fl_exact 125 6 (by norm_num) (by norm_num) (by norm_num)
    (n := 8796093022208000) (by norm_num)

/-- 2000 is an exact double. -/
lemma fl_2000 : fl 2000 = 2000 :=
  fl_exact 2000 10 (by norm_num) (by norm_num) (by norm_num)
    (n := 8796093022208000) (by norm_num)

/-- 1/8 = 0.125 is an exact double. -/
lemma fl_1_8 : fl (1/8) = 1/8 :=
  fl_exact (1/8) (-3) (by norm_num) (by norm_num) (by norm_num)
    (n := 4503599627370496) (by norm_num)

/-- 8000/11 rounds down: the scaled significand has fractional part 2/11. -/
lemma fl_8000_11 : fl (8000/11) = 6397158561605818 / 2 ^ 43 := by
  have h := fl_eval (8000/11) 9 6397158561605818 (by norm_num) (by norm_num)
    (by norm_num) (rhe_eq_floor _ 6397158561605818 (by norm_num) (by norm_num))
  rw [h]; norm_num

/-- 11/8000 = 0.001375 rounds down: fractional part 46/125 of the scaled
significand. -/
lemma fl_11_8000 : fl (11/8000) = 6341068275337658 / 2 ^ 62 := by
  have h := fl_eval (11/8000) (-10) 6341068275337658 (by norm_num) (by norm_num)
    (by norm_num) (rhe_eq_floor _ 6341068275337658 (by norm_num) (by norm_num))
  rw [h]; norm_num

/-- the reciprocal of the rounded 0.001375 rounds up, one ulp above the
rounding of 8000/11. -/
lemma fl_recip_g : fl (2 ^ 62 / 6341068275337658) = 6397158561605819 / 2 ^ 43 := by
  have h := fl_eval (2 ^ 62 / 6341068275337658) 9 6397158561605819 (by norm_num)
    (by norm_num) (by norm_num)
    (rhe_eq_ceil _ 6397158561605818 (by norm_num) (by norm_num))
  rw [h]; norm_num

/-- 1/8000 = 0.000125 rounds up: fractional part 113/125 of the scaled
significand. -/
lemma fl_1_8000 : fl (1/8000) = 4611686018427388 / 2 ^ 65 := by
  have h := fl_eval (1/8000) (-13) 4611686018427388 (by norm_num) (by norm_num)
    (by norm_num) (rhe_eq_ceil _ 4611686018427387 (by norm_num) (by norm_num))
  rw [h]; norm_num

/-- the reciprocal of the rounded 0.000125 rounds back to exactly 8000. -/
lemma fl_recip_g2 : fl (2 ^ 65 / 4611686018427388) = 8000 := by
  have h := fl_eval (2 ^ 65 / 4611686018427388) 12 8796093022208000 (by norm_num)
    (by norm_num) (by norm_num)
    (rhe_eq_ceil _ 8796093022207999 (by norm_num) (by norm_num))
  rw [h]; norm_num

/-- first derivation at cap 1, speed 11: the double below 8000/11. -/
lemma seconds_one_1_11 : seconds_one 1 11 = 6397158561605818 / 2 ^ 43 := by
  unfold seconds_one MEGABYTES_IN_A_GIGABYTE MEGABYTES_IN_A_MEGABIT
  rw [show (1 : ℚ) * 1000 = 1000 by norm_num,
    show (0.125 : ℚ) * 11 = 11/8 by norm_num, fl_1000, fl_11_8,
    show (1000 : ℚ) / (11/8) = 8000/11 by norm_num, fl_8000_11]

/-- second derivation at cap 1, speed 11: the double above 8000/11, one ulp
higher than the first derivation. -/
lemma seconds_two_1_11 : seconds_two 1 11 = 6397158561605819 / 2 ^ 43 := by
  unfold seconds_two MEGABYTES_IN_A_GIGABYTE MEGABYTES_IN_A_MEGABIT
  rw [show (11 : ℚ) * 0.125 = 11/8 by norm_num, fl_11_8,
    show (11/8 : ℚ) / 1000 = 11/8000 by norm_num, fl_11_8000,
    show (1 : ℚ) / (6341068275337658 / 2 ^ 62) = 2 ^ 62 / 6341068275337658 by
      norm_num, fl_recip_g]

/-- the assert on line 50 fails at cap 1, speed 11. -/
lemma seconds_to_cap_1_11 : seconds_to_cap 1 11 = none := by
  unfold seconds_to_cap
  rw [seconds_one_1_11, seconds_two_1_11]
  norm_num

/-- at cap 1, speed 1 both derivations give exactly 8000 and the assert
passes. -/
lemma seconds_to_cap_1_1 : seconds_to_cap 1 1 = some 8000 := by
  unfold seconds_to_cap seconds_one seconds_two
    MEGABYTES_IN_A_GIGABYTE MEGABYTES_IN_A_MEGABIT
  rw [show (1 : ℚ) * 1000 = 1000 by norm_num,
    show (0.125 : ℚ) * 1 = 1/8 by norm_num,
    show (1 : ℚ) * 0.125 = 1/8 by norm_num, fl_1000, fl_1_8,
    show (1000 : ℚ) / (1/8) = 8000 by norm_num, fl_8000,
    show (1/8 : ℚ) / 1000 = 1/8000 by norm_num, fl_1_8000,
    show (1 : ℚ) / (4611686018427388 / 2 ^ 65) = 2 ^ 65 / 4611686018427388 by
      norm_num, fl_recip_g2]
  norm_num

/-- at cap 250, speed 1000 both derivations give exactly 2000 and the assert
passes. -/
lemma seconds_to_cap_250_1000 : seconds_to_cap 250 1000 = some 2000 := by
  unfold seconds_to_cap seconds_one seconds_two
    MEGABYTES_IN_A_GIGABYTE MEGABYTES_IN_A_MEGABIT
  rw [show (250 : ℚ) * 1000 = 250000 by norm_num,
    show (0.125 : ℚ) * 1000 = 125 by norm_num,
    show (1000 : ℚ) * 0.125 = 125 by norm_num, fl_250000, fl_125,
    show (250000 : ℚ) / 125 = 2000 by norm_num, fl_2000,
    show (125 : ℚ) / 1000 = 1/8 by norm_num, fl_1_8,
    show (250 : ℚ) / (1/8) = 2000 by norm_num, fl_2000]
  norm_num

/-- C1: the claim's universal return property fails on the code: at cap 1,
speed 11 the assert on line 50 aborts `seconds_to_cap` (modelled by `none`)
instead of returning the formula's value; the two reference values 8000 and
2000 do hold, where the assert passes. -/
theorem seconds_to_cap_behavior :
    seconds_to_cap 1 11 = none ∧
    seconds_to_cap 1 1 = some 8000 ∧
    seconds_to_cap 250 1000 = some 2000 :=
  ⟨seconds_to_cap_1_11, seconds_to_cap_1_1, seconds_to_cap_250_1000⟩

/-- C4: the two derivations inside `seconds_to_cap` are not exactly equal in
the program's binary64 arithmetic: at cap 1, speed 11 they differ by one ulp
(727.2727272727273 versus 727.2727272727274), so the assert fires on a valid
input. -/
theorem seconds_derivations_differ :
    seconds_one 1 11 ≠ seconds_two 1 11 ∧
    seconds_one 1 11 = 6397158561605818 / 2 ^ 43 ∧
    seconds_two 1 11 = 6397158561605819 / 2 ^ 43 := by
  refine ⟨?_, seconds_one_1_11, seconds_two_1_11⟩
  rw [seconds_one_1_11, seconds_two_1_11]
  norm_num

/-- normal form of `Time.from_seconds` with the unit constants evaluated:
31557600 seconds per year, 86400 per day, 3600 per hour, 60 per minute. -/
lemma from_seconds_eq (t : ℚ) :
    Time.from_seconds t =
      ⟨(pydivmod t 31557600).1,
       (pydivmod (pydivmod t 31557600).2 86400).1,
       (pydivmod (pydivmod (pydivmod t 31557600).2 86400).2 3600).1,
       (pydivmod (pydivmod (pydivmod (pydivmod t 31557600).2 86400).2 3600).2 60).1,
       (pydivmod (pydivmod (pydivmod (pydivmod t 31557600).2 86400).2 3600).2 60).2⟩ := by
  simp only [Time.from_seconds]
  norm_num

/-- remainder of a floor division by a positive divisor is non-negative. -/
lemma floor_rem_nonneg (x y : ℚ) (hy : 0 < y) :
    0 ≤ x - y * ((⌊x / y⌋ : ℤ) : ℚ) := by
  have h : x - y * ((⌊x / y⌋ : ℤ) : ℚ) = y * Int.fract (x / y) := by
    simp only [Int.fract]
    field_simp
  rw [h]
  exact mul_nonneg hy.le (Int.fract_nonneg _)

/-- remainder of a floor division by a positive divisor is below the divisor. -/
lemma floor_rem_lt (x y : ℚ) (hy : 0 < y) :
    x - y * ((⌊x / y⌋ : ℤ) : ℚ) < y := by
  have h : x - y * ((⌊x / y⌋ : ℤ) : ℚ) = y * Int.fract (x / y) := by
    simp only [Int.fract]
    field_simp
  rw [h]
  calc y * Int.fract (x / y) < y * 1 := mul_lt_mul_of_pos_left (Int.fract_lt_one _) hy
    _ = y := mul_one y

/-- floor quotient of a non-negative number by a positive divisor, cast back
to the rationals, is non-negative. -/
lemma floor_quot_nonneg (x y : ℚ) (hx : 0 ≤ x) (hy : 0 < y) :
    0 ≤ ((⌊x / y⌋ : ℤ) : ℚ) := by
  have h : (0 : ℤ) ≤ ⌊x / y⌋ := Int.floor_nonneg.mpr (div_nonneg hx hy.le)
  exact_mod_cast h

/-- bound on the floor of a quotient: if `x < y * (c + 1)` with `y > 0` then
`⌊x / y⌋ ≤ c`. -/
lemma floor_div_le (x y : ℚ) (c : ℤ) (hy : 0 < y) (hx : x < y * (c + 1)) :
    ⌊x / y⌋ ≤ c := by
  have h1 : x / y < ((c + 1 : ℤ) : ℚ) := by
    rw [div_lt_iff hy]
    push_cast
    linarith
  have h2 : ⌊x / y⌋ < c + 1 := Int.floor_lt.mpr h1
  omega

/-- C2: for every `t ≥ 0`, `Time.from_seconds t` is the successive floor
division with remainder, largest unit first: years and remainder from dividing
by 31557600, then days by 86400, then hours by 3600, then minutes by 60, the
final remainder being the seconds field; the first four fields are integers so
any fractional part survives only in the seconds field. -/
theorem from_seconds_divmod_chain (t : ℚ) (ht : 0 ≤ t) :
    ∃ r1 r2 r3 : ℚ,
      (Time.from_seconds t).years = ((⌊t / 31557600⌋ : ℤ) : ℚ) ∧
      r1 = t - 31557600 * ((⌊t / 31557600⌋ : ℤ) : ℚ) ∧
      (Time.from_seconds t).days = ((⌊r1 / 86400⌋ : ℤ) : ℚ) ∧
      r2 = r1 - 86400 * ((⌊r1 / 86400⌋ : ℤ) : ℚ) ∧
      (Time.from_seconds t).hours = ((⌊r2 / 3600⌋ : ℤ) : ℚ) ∧
      r3 = r2 - 3600 * ((⌊r2 / 3600⌋ : ℤ) : ℚ) ∧
      (Time.from_seconds t).minutes = ((⌊r3 / 60⌋ : ℤ) : ℚ) ∧
      (Time.from_seconds t).seconds = r3 - 60 * ((⌊r3 / 60⌋ : ℤ) : ℚ) := by
  rw [from_seconds_eq]
  exact ⟨(pydivmod t 31557600).2,
         (pydivmod (pydivmod t 31557600).2 86400).2,
         (pydivmod (pydivmod (pydivmod t 31557600).2 86400).2 3600).2,
         rfl, rfl, rfl, rfl, rfl, rfl, rfl, rfl⟩

/-- C2 witness: the divmod chain evaluated at t = 2000. -/
theorem from_seconds_divmod_chain_witness :
    0 ≤ (2000 : ℚ) ∧
    ∃ r1 r2 r3 : ℚ,
      (Time.from_seconds 2000).years = ((⌊(2000 : ℚ) / 31557600⌋ : ℤ) : ℚ) ∧
      r1 = 2000 - 31557600 * ((⌊(2000 : ℚ) / 31557600⌋ : ℤ) : ℚ) ∧
      (Time.from_seconds 2000).days = ((⌊r1 / 86400⌋ : ℤ) : ℚ) ∧
      r2 = r1 - 86400 * ((⌊r1 / 86400⌋ : ℤ) : ℚ) ∧
      (Time.from_seconds 2000).hours = ((⌊r2 / 3600⌋ : ℤ) : ℚ) ∧
      r3 = r2 - 3600 * ((⌊r2 / 3600⌋ : ℤ) : ℚ) ∧
      (Time.from_seconds 2000).minutes = ((⌊r3 / 60⌋ : ℤ) : ℚ) ∧
      (Time.from_seconds 2000).seconds = r3 - 60 * ((⌊r3 / 60⌋ : ℤ) : ℚ) :=
  ⟨by norm_num, from_seconds_divmod_chain 2000 (by norm_num)⟩

/-- C3: reconstructing total seconds from the fields of `Time.from_seconds t`
gives back `t` exactly. -/
theorem from_seconds_roundtrip (t : ℚ) (ht : 0 ≤ t) :
    (Time.from_seconds t).years * 31557600 + (Time.from_seconds t).days * 86400 +
      (Time.from_seconds t).hours * 3600 + (Time.from_seconds t).minutes * 60 +
      (Time.from_seconds t).seconds = t := by
  simp only [Time.from_seconds, pydivmod]
  ring_nf

/-- C3 witness: the round trip evaluated at t = 31647661. -/
theorem from_seconds_roundtrip_witness :
    0 ≤ (31647661 : ℚ) ∧
    (Time.from_seconds 31647661).years * 31557600 +
      (Time.from_seconds 31647661).days * 86400 +
      (Time.from_seconds 31647661).hours * 3600 +
      (Time.from_seconds 31647661).minutes * 60 +
      (Time.from_seconds 31647661).seconds = 31647661 :=
  ⟨by norm_num, from_seconds_roundtrip 31647661 (by norm_num)⟩

/-- C5: the decomposer's value on the three reference inputs of the spec. -/
theorem from_seconds_values :
    Time.from_seconds 31557600 = ⟨1, 0, 0, 0, 0⟩ ∧
    Time.from_seconds 31647661 = ⟨1, 1, 1, 1, 1⟩ ∧
    Time.from_seconds 2000 = ⟨0, 0, 0, 33, 20⟩ := by
  refine ⟨?_, ?_, ?_⟩ <;>
    · rw [from_seconds_eq]
      simp only [pydivmod]
      norm_num [Time.mk.injEq]

/-- C10: for every `t ≥ 0` the decomposition is normalized: every field is
non-negative, `days ≤ 365`, `hours ≤ 23`, `minutes ≤ 59`, `seconds < 60`, and
the first four fields are whole numbers. -/
theorem from_seconds_normalized (t : ℚ) (ht : 0 ≤ t) :
    0 ≤ (Time.from_seconds t).years ∧
    0 ≤ (Time.from_seconds t).days ∧ (Time.from_seconds t).days ≤ 365 ∧
    0 ≤ (Time.from_seconds t).hours ∧ (Time.from_seconds t).hours ≤ 23 ∧
    0 ≤ (Time.from_seconds t).minutes ∧ (Time.from_seconds t).minutes ≤ 59 ∧
    0 ≤ (Time.from_seconds t).seconds ∧ (Time.from_seconds t).seconds < 60 ∧
    (∃ k : ℤ, (Time.from_seconds t).years = k) ∧
    (∃ k : ℤ, (Time.from_seconds t).days = k) ∧
    (∃ k : ℤ, (Time.from_seconds t).hours = k) ∧
    (∃ k : ℤ, (Time.from_seconds t).minutes = k) := by
  have h1 : (0 : ℚ) < 31557600 := by norm_num
  have h2 : (0 : ℚ) < 86400 := by norm_num
  have h3 : (0 : ℚ) < 3600 := by norm_num
  have h4 : (0 : ℚ) < 60 := by norm_num
  rw [from_seconds_eq]
  simp only [pydivmod]
  set r1 := t - 31557600 * ((⌊t / 31557600⌋ : ℤ) : ℚ) with hr1
  set r2 := r1 - 86400 * ((⌊r1 / 86400⌋ : ℤ) : ℚ) with hr2
  set r3 := r2 - 3600 * ((⌊r2 / 3600⌋ : ℤ) : ℚ) with hr3
  have hr1nn : 0 ≤ r1 := by rw [hr1]; exact floor_rem_nonneg t 31557600 h1
  have hr1lt : r1 < 31557600 := by rw [hr1]; exact floor_rem_lt t 31557600 h1
  have hr2nn : 0 ≤ r2 := by rw [hr2]; exact floor_rem_nonneg r1 86400 h2
  have hr2lt : r2 < 86400 := by rw [hr2]; exact floor_rem_lt r1 86400 h2
  have hr3nn : 0 ≤ r3 := by rw [hr3]; exact floor_rem_nonneg r2 3600 h3
  have hr3lt : r3 < 3600 := by rw [hr3]; exact floor_rem_lt r2 3600 h3
  refine ⟨floor_quot_nonneg t 31557600 ht h1,
          floor_quot_nonneg r1 86400 hr1nn h2, ?_,
          floor_quot_nonneg r2 3600 hr2nn h3, ?_,
          floor_quot_nonneg r3 60 hr3nn h4, ?_,
          floor_rem_nonneg r3 60 h4, floor_rem_lt r3 60 h4,
          ⟨_, rfl⟩, ⟨_, rfl⟩, ⟨_, rfl⟩, ⟨_, rfl⟩⟩
  · exact_mod_cast floor_div_le r1 86400 365 h2 (lt_of_lt_of_le hr1lt (by norm_num))
  · exact_mod_cast floor_div_le r2 3600 23 h3 (lt_of_lt_of_le hr2lt (by norm_num))
  · exact_mod_cast floor_div_le r3 60 59 h4 (lt_of_lt_of_le hr3lt (by norm_num))

/-- C10 witness: the invariant evaluated at t = 31647661. -/
theorem from_seconds_normalized_witness :
    0 ≤ (31647661 : ℚ) ∧
    (0 ≤ (Time.from_seconds 31647661).years ∧
     0 ≤ (Time.from_seconds 31647661).days ∧ (Time.from_seconds 31647661).days ≤ 365 ∧
     0 ≤ (Time.from_seconds 31647661).hours ∧ (Time.from_seconds 31647661).hours ≤ 23 ∧
     0 ≤ (Time.from_seconds 31647661).minutes ∧ (Time.from_seconds 31647661).minutes ≤ 59 ∧
     0 ≤ (Time.from_seconds 31647661).seconds ∧ (Time.from_seconds 31647661).seconds < 60 ∧
     (∃ k : ℤ, (Time.from_seconds 31647661).years = k) ∧
     (∃ k : ℤ, (Time.from_seconds 31647661).days = k) ∧
     (∃ k : ℤ, (Time.from_seconds 31647661).hours = k) ∧
     (∃ k : ℤ, (Time.from_seconds 31647661).minutes = k)) :=
  ⟨by norm_num, from_seconds_normalized 31647661 (by norm_num)⟩

/-- C6: the rendering of a `Time` value drops the years column exactly when
`years` is zero; every remaining field with a positive value becomes its value
and field name justified to column width 10, a field without a positive value
becomes a blank column of width 10, and the columns are joined with single
spaces. -/
theorem time_str_rendering (t : Time) :
    Time.str t = String.intercalate " "
      ((if t.years = 0 then
          ([(t.days, "days"), (t.hours, "hours"), (t.minutes, "minutes"),
            (t.seconds, "seconds")] : List (ℚ × String))
        else
          [(t.years, "years"), (t.days, "days"), (t.hours, "hours"),
           (t.minutes, "minutes"), (t.seconds, "seconds")]).map
        fun p => if 0 < p.1 then ljust (fmt2d p.1 ++ " " ++ p.2) 10
          else spaces 10) ∧
    (spaces 10).length = 10 := by
  constructor
  · by_cases h : t.years = 0 <;> simp [Time.str, fieldColumn, h]
  · rfl

/-- the line reporter on an input where the assert passes: banner line plus
the indented duration. -/
lemma print_time_to_cap_of_some (cap speed s : ℚ)
    (h : seconds_to_cap cap speed = some s) :
    print_time_to_cap cap speed =
      ⟨[pyIntStr cap ++ " GB cap @ " ++ pyIntStr speed ++ " megabits:",
        "    " ++ Time.str (Time.from_seconds s)], true⟩ := by
  unfold print_time_to_cap
  rw [h]

/-- the line reporter on an input where the assert fires: the banner line
only, then the abort. -/
lemma print_time_to_cap_of_none (cap speed : ℚ)
    (h : seconds_to_cap cap speed = none) :
    print_time_to_cap cap speed =
      ⟨[pyIntStr cap ++ " GB cap @ " ++ pyIntStr speed ++ " megabits:"], false⟩ := by
  unfold print_time_to_cap
  rw [h]

/-- the row loop emits a row and continues when the assert passes. -/
lemma capTableRows_cons_some (c s : ℤ) (v : ℚ) (rest : List (ℤ × ℤ))
    (h : seconds_to_cap (c : ℚ) (s : ℚ) = some v) :
    capTableRows ((c, s) :: rest) =
      ⟨capTableRow c s v :: (capTableRows rest).lines, (capTableRows rest).ok⟩ := by
  conv_lhs => unfold capTableRows
  rw [h]

/-- the row loop aborts, emitting nothing, when the assert fires. -/
lemma capTableRows_cons_none (c s : ℤ) (rest : List (ℤ × ℤ))
    (h : seconds_to_cap (c : ℚ) (s : ℚ) = none) :
    capTableRows ((c, s) :: rest) = ⟨[], false⟩ := by
  conv_lhs => unfold capTableRows
  rw [h]

/-- the table reporter is the two header lines followed by the row loop's
output, with the row loop's completion status. -/
lemma print_cap_table_eq (figures : List (ℤ × ℤ)) :
    print_cap_table figures =
      ⟨"cap (GB)  speed (mb/s)  time to reach cap (at advertised capacity)" ::
         "--------  ------------  ------------------------------------------" ::
         (capTableRows figures).lines, (capTableRows figures).ok⟩ := rfl

/-- the assert fails at the integer pair (1, 11) as well (the casts into the
rationals are the identity on these values). -/
lemma seconds_to_cap_int_1_11 : seconds_to_cap ((1 : ℤ) : ℚ) ((11 : ℤ) : ℚ) = none := by
  push_cast
  exact seconds_to_cap_1_11

/-- the assert passes at the integer pair (250, 1000) as well. -/
lemma seconds_to_cap_int_250_1000 :
    seconds_to_cap ((250 : ℤ) : ℚ) ((1000 : ℤ) : ℚ) = some 2000 := by
  push_cast
  exact seconds_to_cap_250_1000

/-- C7: a missing `--cap` or `--speed` without `--print-table` prints the
usage help and exits with the non-zero status 2 through the option parser's
error path, and cap 250 with speed 1000 exits 0; but the claim's "valid
inputs exit with status 0" fails on the code: cap 1 with speed 11 dies with
an uncaught `AssertionError`, exit status 1. -/
theorem mainLogic_behavior :
    ((mainLogic false none (some 1)).printsHelp = true ∧
      (mainLogic false none (some 1)).exitCode = 2) ∧
    ((mainLogic false (some 1) none).printsHelp = true ∧
      (mainLogic false (some 1) none).exitCode = 2) ∧
    (mainLogic false (some 250) (some 1000)).exitCode = 0 ∧
    (mainLogic false (some 1) (some 11)).exitCode = 1 := by
  have h3 := print_time_to_cap_of_some 250 1000 2000 seconds_to_cap_250_1000
  have h4 := print_time_to_cap_of_none 1 11 seconds_to_cap_1_11
  refine ⟨⟨rfl, rfl⟩, ⟨rfl, rfl⟩, ?_, ?_⟩
  · show (if (print_time_to_cap 250 1000).ok then 0 else 1 : Nat) = 0
    rw [h3]
    rfl
  · show (if (print_time_to_cap 1 11).ok then 0 else 1 : Nat) = 1
    rw [h4]
    rfl

/-- C8: at cap 1, speed 11 the line reporter prints only the banner line and
then crashes inside `seconds_to_cap`, so the claimed indented duration line
is never printed; at cap 250, speed 1000 both claimed lines are printed. -/
theorem print_time_to_cap_crash :
    print_time_to_cap 1 11 =
      ⟨[pyIntStr 1 ++ " GB cap @ " ++ pyIntStr 11 ++ " megabits:"], false⟩ ∧
    print_time_to_cap 250 1000 =
      ⟨[pyIntStr 250 ++ " GB cap @ " ++ pyIntStr 1000 ++ " megabits:",
        "    " ++ Time.str (Time.from_seconds 2000)], true⟩ :=
  ⟨print_time_to_cap_of_none 1 11 seconds_to_cap_1_11,
   print_time_to_cap_of_some 250 1000 2000 seconds_to_cap_250_1000⟩

/-- C9: the table reporter does not print one row per pair for every ordered
sequence: a figure list headed by (1, 11) aborts right after the two header
lines with zero rows, and with (1, 11) in second position exactly one row is
printed before the abort. -/
theorem print_cap_table_abort :
    print_cap_table [(1, 11), (250, 1000)] =
      ⟨["cap (GB)  speed (mb/s)  time to reach cap (at advertised capacity)",
        "--------  ------------  ------------------------------------------"],
       false⟩ ∧
    print_cap_table [(250, 1000), (1, 11)] =
      ⟨["cap (GB)  speed (mb/s)  time to reach cap (at advertised capacity)",
        "--------  ------------  ------------------------------------------",
        capTableRow 250 1000 2000],
       false⟩ := by
  constructor
  · rw [print_cap_table_eq,
      capTableRows_cons_none 1 11 [(250, 1000)] seconds_to_cap_int_1_11]
  · rw [print_cap_table_eq,
      capTableRows_cons_some 250 1000 2000 [(1, 11)] seconds_to_cap_int_250_1000,
      capTableRows_cons_none 1 11 [] seconds_to_cap_int_1_11]

end BroadbandCap
